import Mathlib

/-!
Verification of the orchestration core in `opencompass/runners/base.py`
(`BaseRunner`): construction, the run entry point `__call__`, and the
status aggregator `summarize`.

Modelling conventions (shallow embedding):
* A Task Result is a pair `(task name, exit code)`; exit codes are `Int`.
* Side effects of `summarize` are made explicit in a `SummarizeOut` record:
  `logs` are the entries emitted through `get_logger().error(...)` inside the
  body of `summarize` itself, `notifierLogs` are entries emitted inside the
  Notifier component (`LarkReporter`), and `postCalls` records the
  `(title, content)` argument pair of every `self.lark_reporter.post(...)`
  invocation, in order.
* Python exception propagation is modelled with `Except String`; a call that
  returns `Except.ok` returns normally.
* The invoking user (`getpass.getuser()`) is an explicit `user` argument; the
  notification transport is an explicit `deliver` argument (url, title,
  content), which may fail.
-/

namespace OpenCompass

/-- Log severity; the aggregator only ever emits error-level entries. -/
inductive LogLevel where
  | error
deriving DecidableEq, Repr

/-- One structured log entry: a severity and a message. -/
structure LogEntry where
  level : LogLevel
  msg : String
deriving DecidableEq, Repr

/-- The notification transport: given the endpoint url, a title and a body,
attempt delivery; may fail with an error message. -/
def Deliver : Type := String → String → String → Except String Unit

/-- Python truthiness of an optional string (`if lark_bot_url:`): `None` and
the empty string are falsy, every other string is truthy. -/
def strOptIsTruthy : Option String → Bool
  | none => false
  | some s => !(s == "")

/-- The Notifier leaf: wraps the messaging endpoint url
(`LarkReporter.__init__` stores the url). -/
structure LarkReporter where
  url : String
deriving DecidableEq, Repr

/-- Modelled from the spec: the Notifier's `post` operation
(`opencompass/utils/lark.py`, not under `src/`). Per the spec, "Delivery
failure (network error, endpoint rejection) must be caught and logged, never
propagated as a run failure" and is "caught and logged by the component
attempting delivery". So `post` attempts delivery through the external
transport and, when the transport fails, logs the failure at error level
instead of raising; it returns the log entries it emitted. -/
def LarkReporter.post (rep : LarkReporter) (deliver : Deliver)
    (title content : String) : List LogEntry :=
  match deliver rep.url title content with
  | Except.ok _ => []
  | Except.error e => [{ level := LogLevel.error, msg := e }]

/-- The runner's construction-time state: `self.task_cfg` (only its `type`
field is read by `summarize`), `self.debug`, and `self.lark_reporter`. -/
structure BaseRunner where
  taskCfgType : String
  debug : Bool
  larkReporter : Option LarkReporter
deriving DecidableEq, Repr

/-- `BaseRunner.__init__`: stores the task config and debug flag, and sets
`self.lark_reporter` to a `LarkReporter` when `lark_bot_url` is truthy, to
`None` otherwise. -/
def initBaseRunner (task : String) (debug : Bool)
    (lark_bot_url : Option String) : BaseRunner :=
  { taskCfgType := task
    debug := debug
    larkReporter :=
      if strOptIsTruthy lark_bot_url then
        lark_bot_url.map fun u => { url := u }
      else
        none }

/-- The classification loop of `summarize` (lines 60-64): for each
`(task, code)` with `code != 0`, emit one error log entry
`"{task} failed with code {code}"` and append the task name to
`failed_logs`; entries with `code == 0` produce nothing. Returns
`(log entries, failed_logs)` in result-list order. -/
def summarizeLoop : List (String × Int) → List LogEntry × List String
  | [] => ([], [])
  | (t, c) :: rest =>
    let r := summarizeLoop rest
    if c ≠ 0 then
      ({ level := LogLevel.error, msg := t ++ " failed with code " ++ toString c } :: r.1,
       t :: r.2)
    else
      r

/-- The ordered failed-task-name list `failed_logs` computed by `summarize`. -/
def failedNames (status : List (String × Int)) : List String :=
  (summarizeLoop status).2

/-- `num_succeeded = len(status) - len(failed_logs)` (line 66). -/
def succeededCount (status : List (String × Int)) : Nat :=
  status.length - (failedNames status).length

/-- The failure notification title (lines 74-75):
`'悲报：您有{len(failed_logs)}个' '任务炸了'`. -/
def failureTitle (k : Nat) : String :=
  "悲报：您有" ++ toString k ++ "个任务炸了"

/-- The failure notification body (lines 67-71), built by the `content +=`
chain: user, task type, succeeded count, failed count, then the failed task
names joined one per line. -/
def failureContent (user ty : String) (n k : Nat) (failed : List String) : String :=
  user ++ " 的 " ++ ty ++ " 任务已完成，成功任务 " ++ toString n ++
    " 个，失败 " ++ toString k ++ " 个。以下为失败的任务列表：" ++
    ("\n" ++ String.intercalate "\n" failed)

/-- The success notification title (line 80): `'喜报：全部任务完成'`. -/
def successTitle : String :=
  "喜报：全部任务完成"

/-- The success notification body (lines 77-79): user, task type and
succeeded count; no task names. -/
def successContent (user ty : String) (n : Nat) : String :=
  user ++ " 的 " ++ ty ++ " 任务已完成，成功任务 " ++ toString n ++ " 个。"

/-- The observable effects of one `summarize` call. -/
structure SummarizeOut where
  /-- Entries emitted through `get_logger().error(...)` in `summarize`'s own
  body. -/
  logs : List LogEntry
  /-- Entries emitted inside the Notifier component during delivery. -/
  notifierLogs : List LogEntry
  /-- The `(title, content)` arguments of each `self.lark_reporter.post`
  call, in order. -/
  postCalls : List (String × String)
deriving DecidableEq, Repr

/-- `BaseRunner.summarize` (lines 53-80): classify each result, logging
failures; then, when `self.lark_reporter` is set, build the failure or
success notification and post it. The Notifier catches delivery failure, so
every branch returns normally (`Except.ok`). -/
def BaseRunner.summarize (r : BaseRunner) (user : String) (deliver : Deliver)
    (status : List (String × Int)) : Except String SummarizeOut :=
  let logs := (summarizeLoop status).1
  let failed_logs := (summarizeLoop status).2
  match r.larkReporter with
  | some rep =>
    let num_succeeded := status.length - failed_logs.length
    if failed_logs.length > 0 then
      let content := failureContent user r.taskCfgType num_succeeded
        failed_logs.length failed_logs
      let title := failureTitle failed_logs.length
      let nlogs := rep.post deliver title content
      Except.ok { logs := logs, notifierLogs := nlogs, postCalls := [(title, content)] }
    else
      let content := successContent user r.taskCfgType num_succeeded
      let nlogs := rep.post deliver successTitle content
      Except.ok { logs := logs, notifierLogs := nlogs, postCalls := [(successTitle, content)] }
  | none =>
    Except.ok { logs := logs, notifierLogs := [], postCalls := [] }

/-- State-passing form of `summarize`: the method body assigns no attribute
of `self` (all its writes are to local variables), so the post-state of the
runner equals the pre-state. -/
def BaseRunner.summarizeS (r : BaseRunner) (user : String) (deliver : Deliver)
    (status : List (String × Int)) : BaseRunner × Except String SummarizeOut :=
  (r, r.summarize user deliver status)

/-- `BaseRunner.__call__` (lines 31-39): launch all tasks through the
backend, then summarize the full result list. A backend failure before a
result list exists (`Except.error`) propagates uncaught; the Python return
value is `None`, the `SummarizeOut` only surfaces the side effects. -/
def BaseRunner.call {α : Type} (r : BaseRunner) (user : String)
    (deliver : Deliver) (launch : List α → Except String (List (String × Int)))
    (tasks : List α) : Except String SummarizeOut :=
  match launch tasks with
  | Except.ok status => r.summarize user deliver status
  | Except.error e => Except.error e

/-! ### Basic lemmas about the classification loop -/

/-- `summarizeLoop` computes, in order: one error entry per nonzero-code
result, and the names of exactly the nonzero-code results. -/
theorem summarizeLoop_eq (status : List (String × Int)) :
    summarizeLoop status =
      (status.filterMap fun p =>
        if p.2 ≠ 0 then
          some { level := LogLevel.error,
                 msg := p.1 ++ " failed with code " ++ toString p.2 }
        else none,
       (status.filter fun p => p.2 ≠ 0).map Prod.fst) := by
  induction status with
  | nil => rfl
  | cons p rest ih =>
    obtain ⟨t, c⟩ := p
    by_cases hc : c ≠ 0 <;>
      simp [summarizeLoop, hc, List.filterMap_cons, List.filter_cons, ih]

theorem failedNames_eq (status : List (String × Int)) :
    failedNames status = (status.filter fun p => p.2 ≠ 0).map Prod.fst := by
  simp [failedNames, summarizeLoop_eq]

theorem failedNames_length_le (status : List (String × Int)) :
    (failedNames status).length ≤ status.length := by
  simp only [failedNames_eq, List.length_map]
  exact List.length_filter_le _ _

theorem filter_zero_add_filter_nonzero (status : List (String × Int)) :
    (status.filter fun p => p.2 = 0).length +
      (status.filter fun p => p.2 ≠ 0).length = status.length := by
  have h := List.length_eq_length_filter_add (l := status)
    (fun p : String × Int => decide (p.2 = 0))
  have he : (fun p : String × Int => !decide (p.2 = 0)) =
      (fun p : String × Int => decide (p.2 ≠ 0)) := by
    funext p
    simp [decide_not]
  rw [he] at h
  omega

theorem summarizeLoop_fst_length (status : List (String × Int)) :
    (summarizeLoop status).1.length = (summarizeLoop status).2.length := by
  induction status with
  | nil => rfl
  | cons p rest ih =>
    obtain ⟨t, c⟩ := p
    by_cases hc : c ≠ 0 <;> simp [summarizeLoop, hc, ih]

/-! ### Branch equations for `summarize` -/

theorem summarize_none_eq (r : BaseRunner) (user : String) (deliver : Deliver)
    (status : List (String × Int)) (h : r.larkReporter = none) :
    r.summarize user deliver status =
      Except.ok { logs := (summarizeLoop status).1, notifierLogs := [],
                  postCalls := [] } := by
  simp [BaseRunner.summarize, h]

theorem summarize_some_fail_eq (r : BaseRunner) (rep : LarkReporter)
    (user : String) (deliver : Deliver) (status : List (String × Int))
    (h : r.larkReporter = some rep) (hf : (failedNames status).length > 0) :
    r.summarize user deliver status =
      Except.ok
        { logs := (summarizeLoop status).1
          notifierLogs := rep.post deliver (failureTitle (failedNames status).length)
            (failureContent user r.taskCfgType (succeededCount status)
              (failedNames status).length (failedNames status))
          postCalls := [(failureTitle (failedNames status).length,
            failureContent user r.taskCfgType (succeededCount status)
              (failedNames status).length (failedNames status))] } := by
  have hf2 : (summarizeLoop status).2.length > 0 := hf
  simp [BaseRunner.summarize, h, hf2, failedNames, succeededCount]

theorem summarize_some_success_eq (r : BaseRunner) (rep : LarkReporter)
    (user : String) (deliver : Deliver) (status : List (String × Int))
    (h : r.larkReporter = some rep) (hf : (failedNames status).length = 0) :
    r.summarize user deliver status =
      Except.ok
        { logs := (summarizeLoop status).1
          notifierLogs := rep.post deliver successTitle
            (successContent user r.taskCfgType status.length)
          postCalls := [(successTitle,
            successContent user r.taskCfgType status.length)] } := by
  have hf2 : (summarizeLoop status).2.length = 0 := hf
  simp [BaseRunner.summarize, h, hf2]

theorem summarize_ok_logs (r : BaseRunner) (user : String) (deliver : Deliver)
    (status : List (String × Int)) :
    ∃ out, r.summarize user deliver status = Except.ok out ∧
      out.logs = (summarizeLoop status).1 := by
  cases hrep : r.larkReporter with
  | none => exact ⟨_, summarize_none_eq r user deliver status hrep, rfl⟩
  | some rep =>
    by_cases hf : (failedNames status).length > 0
    · exact ⟨_, summarize_some_fail_eq r rep user deliver status hrep hf, rfl⟩
    · exact ⟨_, summarize_some_success_eq r rep user deliver status hrep
        (by omega), rfl⟩

theorem summarize_congr (r1 r2 : BaseRunner)
    (hty : r1.taskCfgType = r2.taskCfgType)
    (hrep : r1.larkReporter = r2.larkReporter)
    (user : String) (deliver : Deliver) (status : List (String × Int)) :
    r1.summarize user deliver status = r2.summarize user deliver status := by
  unfold BaseRunner.summarize
  rw [hty, hrep]

/-! ### Concrete transports and backend used by the witnesses -/

/-- A transport whose every delivery attempt succeeds. -/
def okDeliver : Deliver := fun _ _ _ => Except.ok ()

/-- A transport whose every delivery attempt fails with a network error. -/
def downDeliver : Deliver := fun _ _ _ => Except.error "network error"

/-- A backend that reports both of its tasks as failed. -/
def demoLaunch : List String → Except String (List (String × Int)) :=
  fun _ => Except.ok [("t1", 1), ("t2", 2)]

/-! ### The claims -/

/-- Claim C1: when a notification target is configured, a failure of the
notification transport is caught and logged inside the Notifier component
and never propagated to the caller: `summarize` still returns normally
(`Except.ok`), with the delivery failure recorded in the Notifier log. -/
theorem summarize_notification_failure_not_propagated
    (r : BaseRunner) (rep : LarkReporter) (user : String) (deliver : Deliver)
    (e : String) (status : List (String × Int))
    (hrep : r.larkReporter = some rep)
    (hfail : ∀ u t c, deliver u t c = Except.error e) :
    ∃ out, r.summarize user deliver status = Except.ok out ∧
      out.notifierLogs = [{ level := LogLevel.error, msg := e }] := by
  by_cases hf : (failedNames status).length > 0
  · exact ⟨_, summarize_some_fail_eq r rep user deliver status hrep hf,
      by simp [LarkReporter.post, hfail]⟩
  · exact ⟨_, summarize_some_success_eq r rep user deliver status hrep (by omega),
      by simp [LarkReporter.post, hfail]⟩

/-- Witness for C1 at a concrete runner, result list and failing transport. -/
theorem summarize_notification_failure_not_propagated_wit :
    ∃ out, (initBaseRunner "infer" false (some "https://bot")).summarize
        "alice" downDeliver [("t1", 0), ("t2", 137)] = Except.ok out ∧
      out.notifierLogs = [{ level := LogLevel.error, msg := "network error" }] :=
  summarize_notification_failure_not_propagated
    (initBaseRunner "infer" false (some "https://bot")) { url := "https://bot" }
    "alice" downDeliver "network error" [("t1", 0), ("t2", 137)]
    (by decide) (fun _ _ _ => rfl)

/-- Claim C2: the succeeded count is the list length minus the failed count,
and every result is classified into exactly one group: the failed names are
precisely the names of the nonzero-code entries (in order), and the
succeeded count is precisely the number of zero-code entries. -/
theorem summarize_partition (r : BaseRunner) (user : String) (deliver : Deliver)
    (status : List (String × Int)) :
    ∃ out, r.summarize user deliver status = Except.ok out ∧
      out.logs.length = (failedNames status).length ∧
      succeededCount status + (failedNames status).length = status.length ∧
      failedNames status = (status.filter fun p => p.2 ≠ 0).map Prod.fst ∧
      succeededCount status = (status.filter fun p => p.2 = 0).length := by
  obtain ⟨out, hok, hlogs⟩ := summarize_ok_logs r user deliver status
  have h1 : (failedNames status).length =
      (status.filter fun p => p.2 ≠ 0).length := by
    rw [failedNames_eq, List.length_map]
  have h2 := filter_zero_add_filter_nonzero status
  have h3 := failedNames_length_le status
  refine ⟨out, hok, ?_, ?_, failedNames_eq status, ?_⟩
  · rw [hlogs, summarizeLoop_fst_length]
    rfl
  · unfold succeededCount
    omega
  · unfold succeededCount
    omega

/-- Claim C3: with a notification target configured and at least one
nonzero-code entry, `summarize` posts exactly one notification, the failure
variant: its title (`failureTitle`) names the failed count, and its body
(`failureContent`) carries the succeeded count, the failed count, and the
failed task names joined one per line, in result-list order. -/
theorem summarize_failure_notification (r : BaseRunner) (rep : LarkReporter)
    (user : String) (deliver : Deliver) (status : List (String × Int))
    (hrep : r.larkReporter = some rep)
    (hex : ∃ p ∈ status, p.2 ≠ 0) :
    ∃ out, r.summarize user deliver status = Except.ok out ∧
      out.postCalls =
        [(failureTitle (failedNames status).length,
          failureContent user r.taskCfgType (succeededCount status)
            (failedNames status).length (failedNames status))] ∧
      failedNames status = (status.filter fun p => p.2 ≠ 0).map Prod.fst := by
  have hf : (failedNames status).length > 0 := by
    rw [failedNames_eq, List.length_map]
    obtain ⟨p, hp, hc⟩ := hex
    have hmem : p ∈ status.filter (fun p => p.2 ≠ 0) :=
      List.mem_filter.2 ⟨hp, by simpa using hc⟩
    exact List.length_pos.2 (List.ne_nil_of_mem hmem)
  exact ⟨_, summarize_some_fail_eq r rep user deliver status hrep hf, rfl,
    failedNames_eq status⟩

/-- Witness for C3 at a concrete runner and a result list with one failed
entry. -/
theorem summarize_failure_notification_wit :
    ∃ out, (initBaseRunner "infer" false (some "https://bot")).summarize
        "alice" okDeliver [("t1", 0), ("t2", 137)] = Except.ok out ∧
      out.postCalls =
        [(failureTitle (failedNames [("t1", 0), ("t2", 137)]).length,
          failureContent "alice" "infer"
            (succeededCount [("t1", 0), ("t2", 137)])
            (failedNames [("t1", 0), ("t2", 137)]).length
            (failedNames [("t1", 0), ("t2", 137)]))] ∧
      failedNames [("t1", 0), ("t2", 137)] =
        (([("t1", 0), ("t2", 137)] : List (String × Int)).filter
          fun p => p.2 ≠ 0).map Prod.fst :=
  summarize_failure_notification
    (initBaseRunner "infer" false (some "https://bot")) { url := "https://bot" }
    "alice" okDeliver [("t1", 0), ("t2", 137)] (by decide) (by decide)

/-- Claim C4: with a notification target configured and every entry of code
zero (the empty list included), `summarize` posts exactly one notification,
the success variant: title `successTitle`, body `successContent` carrying
only user, run type and the succeeded count (the list length), with no task
names; no error log entry is emitted. -/
theorem summarize_success_notification (r : BaseRunner) (rep : LarkReporter)
    (user : String) (deliver : Deliver) (status : List (String × Int))
    (hrep : r.larkReporter = some rep)
    (hall : ∀ p ∈ status, p.2 = 0) :
    ∃ out, r.summarize user deliver status = Except.ok out ∧
      out.postCalls =
        [(successTitle, successContent user r.taskCfgType status.length)] ∧
      out.logs = [] := by
  have hf : (failedNames status).length = 0 := by
    rw [failedNames_eq, List.length_map, List.length_eq_zero]
    rw [List.filter_eq_nil_iff]
    intro p hp
    simpa using hall p hp
  refine ⟨_, summarize_some_success_eq r rep user deliver status hrep hf, rfl, ?_⟩
  have hlen := summarizeLoop_fst_length status
  have hf2 : (summarizeLoop status).2.length = 0 := hf
  show (summarizeLoop status).1 = []
  exact List.eq_nil_of_length_eq_zero (by omega)

/-- Witness for C4 at a concrete runner and the empty result list
(0 succeeded). -/
theorem summarize_success_notification_wit :
    ∃ out, (initBaseRunner "infer" false (some "https://bot")).summarize
        "alice" okDeliver ([] : List (String × Int)) = Except.ok out ∧
      out.postCalls = [(successTitle, successContent "alice" "infer" 0)] ∧
      out.logs = [] :=
  summarize_success_notification
    (initBaseRunner "infer" false (some "https://bot")) { url := "https://bot" }
    "alice" okDeliver [] (by decide) (by decide)

/-- Claim C5: with no notification target configured, `summarize` never
invokes the Notifier (no post call, no dependence on the transport), while
the per-failed-task error logging is exactly the same as under any
configuration with a target. -/
theorem summarize_no_target_no_delivery (r : BaseRunner) (user : String)
    (deliver : Deliver) (status : List (String × Int))
    (h : r.larkReporter = none) :
    r.summarize user deliver status =
        Except.ok { logs := (summarizeLoop status).1, notifierLogs := [],
                    postCalls := [] } ∧
      (∀ d2 : Deliver, r.summarize user d2 status =
        r.summarize user deliver status) ∧
      (∀ (r2 : BaseRunner) (u2 : String) (d2 : Deliver),
        ∃ out2, r2.summarize u2 d2 status = Except.ok out2 ∧
          out2.logs = (summarizeLoop status).1) := by
  refine ⟨summarize_none_eq r user deliver status h, ?_, ?_⟩
  · intro d2
    rw [summarize_none_eq r user d2 status h,
      summarize_none_eq r user deliver status h]
  · intro r2 u2 d2
    exact summarize_ok_logs r2 u2 d2 status

/-- Witness for C5 at a concrete target-less runner and a failing result
list. -/
theorem summarize_no_target_no_delivery_wit :
    (initBaseRunner "infer" true none).summarize "alice" okDeliver
        [("t1", 7)] =
        Except.ok { logs := (summarizeLoop [("t1", 7)]).1, notifierLogs := [],
                    postCalls := [] } ∧
      (∀ d2 : Deliver, (initBaseRunner "infer" true none).summarize "alice" d2
          [("t1", 7)] =
        (initBaseRunner "infer" true none).summarize "alice" okDeliver
          [("t1", 7)]) ∧
      (∀ (r2 : BaseRunner) (u2 : String) (d2 : Deliver),
        ∃ out2, r2.summarize u2 d2 [("t1", 7)] = Except.ok out2 ∧
          out2.logs = (summarizeLoop [("t1", 7)]).1) :=
  summarize_no_target_no_delivery (initBaseRunner "infer" true none)
    "alice" okDeliver [("t1", 7)] (by decide)

/-- Claim C6: `summarize` itself emits exactly one error-level log entry per
nonzero-code entry, carrying the task name and its exit code, and nothing
for zero-code entries; its own log output is exactly that list. -/
theorem summarize_log_entries_exact (r : BaseRunner) (user : String)
    (deliver : Deliver) (status : List (String × Int)) :
    ∃ out, r.summarize user deliver status = Except.ok out ∧
      out.logs = status.filterMap (fun p =>
        if p.2 ≠ 0 then
          some { level := LogLevel.error,
                 msg := p.1 ++ " failed with code " ++ toString p.2 }
        else none) := by
  obtain ⟨out, h1, h2⟩ := summarize_ok_logs r user deliver status
  refine ⟨out, h1, ?_⟩
  rw [h2, summarizeLoop_eq]

/-- Claim C7: `summarize` mutates no runner state, so two calls on the same
result list produce identical outcomes: the post-state runner equals the
pre-state runner, and a second call on the post-state yields the same
output. -/
theorem summarize_idempotent (r : BaseRunner) (user : String)
    (deliver : Deliver) (status : List (String × Int)) :
    (r.summarizeS user deliver status).1 = r ∧
      ((r.summarizeS user deliver status).1.summarizeS user deliver status).2 =
        (r.summarizeS user deliver status).2 :=
  ⟨rfl, rfl⟩

/-- Claim C8: the run entry point is exactly launch followed by summarize of
the full result list, and it returns normally whenever the backend yields a
result list — in particular also when every task failed. -/
theorem call_launch_then_summarize {α : Type} (r : BaseRunner) (user : String)
    (deliver : Deliver) (launch : List α → Except String (List (String × Int)))
    (tasks : List α) (status : List (String × Int))
    (h : launch tasks = Except.ok status) :
    r.call user deliver launch tasks = r.summarize user deliver status ∧
      ∃ out, r.call user deliver launch tasks = Except.ok out := by
  have h1 : r.call user deliver launch tasks =
      r.summarize user deliver status := by
    simp [BaseRunner.call, h]
  obtain ⟨out, h2, _⟩ := summarize_ok_logs r user deliver status
  exact ⟨h1, out, h1.trans h2⟩

/-- Witness for C8 at a concrete backend whose every task fails. -/
theorem call_launch_then_summarize_wit :
    (initBaseRunner "infer" false (some "https://bot")).call "alice"
        okDeliver demoLaunch ["a", "b"] =
      (initBaseRunner "infer" false (some "https://bot")).summarize "alice"
        okDeliver [("t1", 1), ("t2", 2)] ∧
      ∃ out, (initBaseRunner "infer" false (some "https://bot")).call "alice"
        okDeliver demoLaunch ["a", "b"] = Except.ok out :=
  call_launch_then_summarize (initBaseRunner "infer" false (some "https://bot"))
    "alice" okDeliver demoLaunch ["a", "b"] [("t1", 1), ("t2", 2)] rfl

/-- Claim C9: the debug flag does not interfere with status aggregation or
reporting: two runners constructed identically except for the debug flag
give identical `summarize` outcomes (logs, notification choice, title and
body) on every result list. -/
theorem summarize_debug_noninterference (ty : String) (b1 b2 : Bool)
    (url : Option String) (user : String) (deliver : Deliver)
    (status : List (String × Int)) :
    (initBaseRunner ty b1 url).summarize user deliver status =
      (initBaseRunner ty b2 url).summarize user deliver status :=
  summarize_congr (initBaseRunner ty b1 url) (initBaseRunner ty b2 url)
    rfl rfl user deliver status

/-- Claim C10: any falsy notification target — `None` or the empty string —
disables notification: the constructor leaves the reporter unset, and every
`summarize` call then makes no post call and emits no Notifier log. -/
theorem falsy_url_disables_notification (ty : String) (b : Bool)
    (url : Option String) (h : url = none ∨ url = some "") :
    (initBaseRunner ty b url).larkReporter = none ∧
      ∀ (user : String) (deliver : Deliver) (status : List (String × Int)),
        (initBaseRunner ty b url).summarize user deliver status =
          Except.ok { logs := (summarizeLoop status).1, notifierLogs := [],
                      postCalls := [] } := by
  have hrep : (initBaseRunner ty b url).larkReporter = none := by
    rcases h with h | h <;> subst h <;> rfl
  exact ⟨hrep, fun user deliver status =>
    summarize_none_eq _ user deliver status hrep⟩

/-- Witness for C10 at the empty-string target. -/
theorem falsy_url_disables_notification_wit :
    (initBaseRunner "infer" false (some "")).larkReporter = none ∧
      ∀ (user : String) (deliver : Deliver) (status : List (String × Int)),
        (initBaseRunner "infer" false (some "")).summarize user deliver status =
          Except.ok { logs := (summarizeLoop status).1, notifierLogs := [],
                      postCalls := [] } :=
  falsy_url_disables_notification "infer" false (some "") (Or.inr rfl)

end OpenCompass
